import Mathlib

/-!
A shallow embedding of the core of the `github-profile-analyzer` repository
(`app/services/github_service.py`, `app/services/analyzer.py`,
`app/routers/analyze.py`, `app/models/schemas.py`) together with theorems
settling the frozen claims about its specification.

Modelling conventions:
* Python floats are modelled as exact rationals (`ℚ`); `round(x, n)` is
  modelled by round-half-to-even on rationals (CPython's rounding mode).
* Python ints coming from the remote API (counts) are modelled as `ℕ`;
  instants are epoch seconds.
* `dict`s are modelled as insertion-ordered association lists, which is
  CPython's iteration order.
* Fallible code returns `Except`/`Option`; an `Exception` raised by Python
  code is an `Except.error` carrying the message.
-/

namespace ProfileAnalyzerModel

/-! ### Python rounding

`round(x, 1)` / `round(x, 2)` and the `:.0f` format round half to even. -/

/-- CPython `round(q)`: nearest integer, ties to even. -/
def pyRoundInt (q : ℚ) : ℤ :=
  let f := ⌊q⌋
  let frac := q - (f : ℚ)
  if frac < 1/2 then f
  else if 1/2 < frac then f + 1
  else if f % 2 = 0 then f else f + 1

/-- CPython `round(q, 1)`. -/
def round1 (q : ℚ) : ℚ := (pyRoundInt (q * 10) : ℚ) / 10

/-- CPython `round(q, 2)`. -/
def round2 (q : ℚ) : ℚ := (pyRoundInt (q * 100) : ℚ) / 100

/-! ### The TTL cache (`SimpleCache`, `github_service.py` lines 11-50)

`_cache` is a Python dict from key to `(value, expires_at)`; we model it as
an association list where `set` replaces any earlier entry for the key, and
instants are epoch seconds (`ℕ`).  `_make_key` hashes the md5 of the json of
the argument tuple; we model the key as any string (the call sites below tag
it with the operation name and arguments, which is deterministic and
injective exactly as the spec's §4.1 requires). -/

structure SimpleCache (α : Type) where
  entries : List (String × α × Nat)
  default_ttl : Nat
deriving Repr

/-- `ttl = ttl or self.default_ttl` (line 34): Python `or` takes the default
when `ttl` is `None` *or* `0`, since both are falsy. -/
def ttlOrDefault (ttl : Option Nat) (d : Nat) : Nat :=
  match ttl with
  | none => d
  | some t => if t = 0 then d else t

/-- `SimpleCache.set` (lines 32-36): `expires_at = now + ttl`. -/
def SimpleCache.set {α : Type} (c : SimpleCache α) (key : String) (value : α)
    (ttl : Option Nat) (now : Nat) : SimpleCache α :=
  { c with entries :=
      (key, value, now + ttlOrDefault ttl c.default_ttl) ::
        c.entries.filter (fun e => e.1 != key) }

/-- `SimpleCache.get` (lines 22-30): a hit only when `now < expires_at`
(strict); an expired entry behaves as a miss (it is also evicted, which does
not affect the returned value and is not modelled). -/
def SimpleCache.get {α : Type} (c : SimpleCache α) (key : String) (now : Nat) : Option α :=
  match c.entries.find? (fun e => e.1 == key) with
  | some (_, v, exp) => if now < exp then some v else none
  | none => none

/-! ### String helpers for the remote client and router -/

/-- `charsContain sub cs` is true iff `sub` occurs contiguously in `cs`. -/
def charsContain (sub : List Char) : List Char → Bool
  | [] => sub.isEmpty
  | c :: cs => sub.isPrefixOf (c :: cs) || charsContain sub cs

/-- Python's `sub in s` substring test. -/
def strContains (s sub : String) : Bool := charsContain sub.toList s.toList

/-- Python's `str.lower()` (the responses involved are ASCII). -/
def pyLower (s : String) : String := String.mk (s.toList.map Char.toLower)

/-- Python's `str.strip()`: drop leading and trailing whitespace. -/
def pyStrip (s : String) : String :=
  String.mk (((s.toList.dropWhile Char.isWhitespace).reverse.dropWhile
    Char.isWhitespace).reverse)

/-! ### `GitHubService._request` (lines 99-111) and the router's error
classification (`app/routers/analyze.py` lines 45-50)

The service raises a plain `Exception` whose message carries the seconds
until reset; we model a raised exception as `Except.error msg`.  Times are
epoch seconds (`ℤ`), so `int((reset_time - now).total_seconds())` is exactly
`reset - now`. -/

structure HttpResponse where
  status_code : Nat
  text : String
  /-- the instant parsed from the `x-ratelimit-reset` header; `none` when the
  header is absent or `0` (`_update_rate_limit`, lines 85-89). -/
  ratelimit_reset : Option Int
deriving Repr

/-- The error check `_request` performs after receiving a response
(lines 104-110); on success the response is passed through. -/
def requestCheck (resp : HttpResponse) (now : Int) : Except String HttpResponse :=
  if resp.status_code == 403 && strContains (pyLower resp.text) "rate limit" then
    match resp.ratelimit_reset with
    | some reset =>
        .error ("Rate limit exceeded. Resets in " ++ toString (reset - now) ++
          " seconds. Add GITHUB_TOKEN to .env file for 5000 requests/hour.")
    | none =>
        .error "Rate limit exceeded. Add GITHUB_TOKEN to .env file for 5000 requests/hour."
  else .ok resp

/-- The `analyze_profile` exception handler (`analyze.py` lines 45-50):
a `ValueError` becomes HTTP 404 with its message; any other exception becomes
404 "GitHub user not found" when its message contains `"404"`, else a 500.
Returns `(status_code, detail)`. -/
def classifyException (isValueError : Bool) (msg : String) (query : String) : Nat × String :=
  if isValueError then (404, msg)
  else if strContains msg "404" then (404, "GitHub user not found: " ++ query)
  else (500, "Error analyzing profile: " ++ msg)

/-! ### Identity resolution (`_extract_username` lines 68-83,
`search_user_by_email` lines 113-134, `resolve_username` lines 301-312) -/

/-- One character of the regex class `[a-zA-Z0-9-]`. -/
def isHandleChar (ch : Char) : Bool := ch.isAlphanum || ch == '-'

/-- The six concrete prefixes generated by
`(?:https?://)?(?:www\.)?github\.com/`, in the regex's backtracking order.
They are pairwise incompatible (no string starts with two of them), so
committing to the first that matches is equivalent to full backtracking. -/
def urlPrefixes : List String :=
  ["https://www.github.com/", "https://github.com/",
   "http://www.github.com/", "http://github.com/",
   "www.github.com/", "github.com/"]

/-- `re.match(r"(?:https?://)?(?:www\.)?github\.com/([a-zA-Z0-9-]+)", q)`:
anchored at the start, trailing text allowed, `group(1)` is the maximal
nonempty run of handle characters after the prefix. -/
def matchGithubUrl (cs : List Char) : Option String :=
  match urlPrefixes.findSome?
      (fun p => if p.toList.isPrefixOf cs then some (cs.drop p.length) else none) with
  | some rest =>
      let handle := rest.takeWhile isHandleChar
      if handle.isEmpty then none else some (String.mk handle)
  | none => none

/-- `GitHubService._extract_username` (lines 68-83): strip, try the URL
pattern, else return the query as-is (the `"@" in query` branch and the
fall-through both return the query unchanged). -/
def extractUsername (query : String) : String :=
  let q := pyStrip query
  match matchGithubUrl q.toList with
  | some handle => handle
  | none => if q.toList.contains '@' then q else q

/-- The cache key `cache._make_key("search_email", email)`: an md5 of the
json-encoded argument tuple, modelled as the (injective) tagged string. -/
def searchKey (email : String) : String := "search_email:" ++ email

/-- `GitHubService.search_user_by_email` (lines 113-134).  `remote` is the
outcome of the remote search when it is consulted: `some login` when the
response is 200 with `total_count > 0`, otherwise `none` (non-200 responses
and empty result sets both fall through to the negative-caching line).
Returns the Python return value (`None` ↦ `none`, a string ↦ `some`) and the
updated cache.  Note the cached-hit branch returns whatever string was
cached, including the negative marker `""`. -/
def searchUserByEmail (c : SimpleCache String) (email : String)
    (remote : Option String) (now : Nat) : Option String × SimpleCache String :=
  let key := searchKey email
  match c.get key now with
  | some cached => (some cached, c)
  | none =>
      match remote with
      | some login => (some login, c.set key login none now)
      | none => (none, c.set key "" none now)

/-- `GitHubService.resolve_username` (lines 301-312).  `if found:` is a Python
truthiness test, false both for `None` and for the empty string. -/
def resolveUsername (c : SimpleCache String) (query : String)
    (remote : Option String) (now : Nat) : Except String String × SimpleCache String :=
  let extracted := extractUsername query
  if extracted.toList.contains '@' then
    let r := searchUserByEmail c extracted remote now
    (match r.1 with
     | some s =>
        if s == "" then .error ("No GitHub user found with email: " ++ extracted)
        else .ok s
     | none => .error ("No GitHub user found with email: " ++ extracted), r.2)
  else (.ok extracted, c)

/-! ### Concurrent language fan-out (`get_multiple_repo_languages`,
lines 211-223)

`asyncio.gather(..., return_exceptions=True)` yields, per repo name in
order, either the `(repo_name, langs)` tuple or the raised exception object.
The dict comprehension then iterates the list *unpacking each item first*
(`for name, langs in results`); unpacking an `Exception` object raises
`TypeError` before the `isinstance` filter is ever evaluated. -/

/-- A per-repository language map (`dict[str, int]`). -/
abbrev LangMap := List (String × Nat)

/-- One slot of the `gather` result: the tuple from a successful
`fetch_one`, or the exception object stored by `return_exceptions=True`. -/
inductive GatherItem where
  | tup (name : String) (langs : LangMap)
  | exc
deriving Repr, DecidableEq

/-- The `gather` call of line 218: `outcome n` is how `fetch_one n` ends
(`.ok` its language map, `.error` when it raises). -/
def gatherLanguages (outcome : String → Except Unit LangMap)
    (repoNames : List String) : List GatherItem :=
  repoNames.map (fun n =>
    match outcome n with
    | .ok langs => .tup n langs
    | .error _ => .exc)

/-- The dict comprehension of lines 220-223: items are unpacked left to
right; the first exception object aborts the whole comprehension with a
`TypeError` (Python cannot unpack a non-iterable `Exception`). -/
def buildLanguagesDict : List GatherItem → Except String (List (String × LangMap))
  | [] => .ok []
  | .tup n langs :: rest =>
      (buildLanguagesDict rest).map (fun m => (n, langs) :: m)
  | .exc :: _ => .error "TypeError: cannot unpack non-iterable Exception object"

/-- `GitHubService.get_multiple_repo_languages` (lines 211-223), as a
function of how each repository's `fetch_one` task ends. -/
def getMultipleRepoLanguages (outcome : String → Except Unit LangMap)
    (repoNames : List String) : Except String (List (String × LangMap)) :=
  buildLanguagesDict (gatherLanguages outcome repoNames)


/-- Twenty repository names, as in the claim's 3-of-20 scenario. -/
def c1Names : List String := (List.range 20).map (fun i => "repo" ++ toString i)

/-- An outcome assignment under which exactly the three lookups for
`repo3`, `repo7` and `repo11` raise and the remaining seventeen succeed. -/
def c1Outcome (n : String) : Except Unit LangMap :=
  if n == "repo3" || n == "repo7" || n == "repo11" then .error ()
  else .ok [("Python", 10)]


/-! ### Data model (`app/models/schemas.py`)

Floats are `ℚ`; parsed `created_at` timestamps are carried as epoch seconds
together with the calendar year (the two `datetime` attributes the analyzer
reads; the calendar conversion itself is a library boundary). -/

structure Timestamp where
  seconds : Int
  year : Int
deriving Repr, DecidableEq

structure LanguageStat where
  name : String
  percentage : ℚ
  bytes : Nat
  color : String
deriving Repr, DecidableEq

structure RepoHighlight where
  name : String
  description : Option String
  stars : Nat
  forks : Nat
  language : Option String
  url : String
deriving Repr, DecidableEq

structure ActivityPattern where
  most_active_day : String
  most_active_hour : Nat
  total_commits_last_year : Nat
  longest_streak : Nat
  current_streak : Nat
  consistency_score : ℚ
deriving Repr, DecidableEq

structure CollaborationMetrics where
  public_repos : Nat
  public_gists : Nat
  followers : Nat
  following : Nat
  follower_ratio : ℚ
  organizations : List String
deriving Repr, DecidableEq

structure GrowthTimeline where
  year : Int
  repos_created : Nat
  languages_used : List String
  stars_earned : Nat
deriving Repr, DecidableEq

/-- A raw repository record, restricted to the fields the analyzer reads. -/
structure Repo where
  name : String
  stargazers_count : Nat
  forks_count : Nat
  language : Option String
  description : Option String
  html_url : String
  created_at : Timestamp
deriving Repr, DecidableEq

/-- A raw user record, restricted to the fields the analyzer reads. -/
structure User where
  login : String
  name : Option String
  avatar_url : String
  bio : Option String
  location : Option String
  company : Option String
  blog : Option String
  twitter_username : Option String
  email : Option String
  hireable : Option Bool
  created_at : Timestamp
  followers : Nat
  following : Nat
  public_repos : Nat
  public_gists : Nat
  html_url : String
deriving Repr, DecidableEq

/-- The dict produced by `get_contribution_stats` (`github_service.py`
lines 275-299); the raw `events` list is not consumed by the analyzer and is
omitted. -/
structure ContributionStats where
  total_push_events : Nat
  total_pr_events : Nat
  total_issue_events : Nat
  commit_hours : List Nat
  commit_days : List String
deriving Repr, DecidableEq

structure ProfileAnalysis where
  username : String
  name : Option String
  avatar_url : String
  bio : Option String
  location : Option String
  company : Option String
  blog : Option String
  twitter : Option String
  email : Option String
  hireable : Option Bool
  created_at : Timestamp
  account_age_years : ℚ
  profile_url : String
  languages : List LanguageStat
  primary_language : Option String
  tech_diversity_score : ℚ
  top_repos : List RepoHighlight
  total_stars : Nat
  total_forks : Nat
  activity : ActivityPattern
  collaboration : CollaborationMetrics
  growth_timeline : List GrowthTimeline
  overall_score : ℚ
  experience_level : String
  focus_areas : List String
  recruiter_summary : String
deriving Repr, DecidableEq

/-! ### The metrics engine (`app/services/analyzer.py`) -/

/-- `LANGUAGE_COLORS` (lines 10-33). -/
def LANGUAGE_COLORS : List (String × String) :=
  [("Python", "#3572A5"), ("JavaScript", "#f1e05a"), ("TypeScript", "#2b7489"),
   ("Java", "#b07219"), ("C++", "#f34b7d"), ("C", "#555555"), ("C#", "#178600"),
   ("Go", "#00ADD8"), ("Rust", "#dea584"), ("Ruby", "#701516"), ("PHP", "#4F5D95"),
   ("Swift", "#ffac45"), ("Kotlin", "#F18E33"), ("Dart", "#00B4AB"),
   ("Scala", "#c22d40"), ("R", "#198CE7"), ("Shell", "#89e051"),
   ("HTML", "#e34c26"), ("CSS", "#563d7c"), ("Vue", "#41b883"),
   ("Svelte", "#ff3e00"), ("Jupyter Notebook", "#DA5B0B")]

/-- `FOCUS_PATTERNS` (lines 36-44), in dict (declaration) order. -/
def FOCUS_PATTERNS : List (String × List String) :=
  [("Web Development",
      ["JavaScript", "TypeScript", "HTML", "CSS", "Vue", "React", "Angular", "Svelte", "PHP"]),
   ("Data Science", ["Python", "R", "Jupyter Notebook"]),
   ("Mobile Development", ["Swift", "Kotlin", "Dart", "Java"]),
   ("Systems Programming", ["C", "C++", "Rust", "Go"]),
   ("DevOps", ["Shell", "Python", "Go", "Dockerfile"]),
   ("Backend Development", ["Java", "Python", "Go", "Ruby", "PHP", "C#"]),
   ("Game Development", ["C++", "C#", "GDScript"])]

/-- `dict.get(k, d)` on an association list. -/
def lookupD {α : Type} (l : List (String × α)) (k : String) (d : α) : α :=
  match l.find? (fun p => p.1 == k) with
  | some p => p.2
  | none => d

/-- Insert `x` into a by-key descending list after every element with key
`≥ key x`: the position a stable descending sort assigns it. -/
def insertDescBy {α : Type} (key : α → Nat) (x : α) : List α → List α
  | [] => [x]
  | y :: ys => if key y < key x then x :: y :: ys else y :: insertDescBy key x ys

/-- Python's `sorted(l, key=key, reverse=True)`: a *stable* descending sort;
every stable algorithm yields the same list, so an insertion sort models
CPython's timsort exactly. -/
def sortDescBy {α : Type} (key : α → Nat) (l : List α) : List α :=
  l.foldl (fun acc x => insertDescBy key x acc) []

/-- `total_bytes[lang] += count` on the insertion-ordered association list
modelling `defaultdict(int)` (lines 60-66). -/
def bumpLang (acc : List (String × Nat)) (lang : String) (count : Nat) :
    List (String × Nat) :=
  if acc.any (fun p => p.1 == lang) then
    acc.map (fun p => if p.1 == lang then (p.1, p.2 + count) else p)
  else acc ++ [(lang, count)]

/-- The body of the `for repo in repos` loop of `_aggregate_languages`
(lines 62-66): `if repo_name in repo_languages:` add each of that repo's
language byte counts. -/
def aggStep (repo_languages : List (String × LangMap)) (acc : List (String × Nat))
    (repo : Repo) : List (String × Nat) :=
  match repo_languages.find? (fun p => p.1 == repo.name) with
  | some p => p.2.foldl (fun a q => bumpLang a q.1 q.2) acc
  | none => acc

/-- The per-language byte totals of `_aggregate_languages` (lines 58-66). -/
def aggregateBytes (repos : List Repo) (repo_languages : List (String × LangMap)) :
    List (String × Nat) :=
  repos.foldl (aggStep repo_languages) []

/-- `total = sum(total_bytes.values()) or 1` (line 68). -/
def totalOr1 (tb : List (String × Nat)) : Nat :=
  let s := (tb.map (fun p => p.2)).sum
  if s = 0 then 1 else s

/-- `ProfileAnalyzer._aggregate_languages` (lines 58-79). -/
def aggregateLanguages (repos : List Repo) (repo_languages : List (String × LangMap)) :
    List LanguageStat :=
  let tb := aggregateBytes repos repo_languages
  let total : ℚ := (totalOr1 tb : ℚ)
  ((sortDescBy (fun p => p.2) tb).map (fun p =>
    { name := p.1
      percentage := round1 ((p.2 : ℚ) / total * 100)
      bytes := p.2
      color := lookupD LANGUAGE_COLORS p.1 "#858585" })).take 10

/-- `ProfileAnalyzer._get_top_repos` (lines 81-96) at the default limit 5. -/
def getTopRepos (repos : List Repo) : List RepoHighlight :=
  ((sortDescBy (fun r => r.stargazers_count) repos).take 5).map (fun r =>
    { name := r.name
      description := r.description
      stars := r.stargazers_count
      forks := r.forks_count
      language := r.language
      url := r.html_url })

/-- The distinct elements of `l` in first-occurrence order (the key order of
`Counter(l)`). -/
def firstOccurrences {α : Type} [DecidableEq α] (l : List α) : List α :=
  l.foldl (fun acc x => if x ∈ acc then acc else acc ++ [x]) []

/-- `Counter(l).most_common(1)`'s leading element, `none` when `l` is empty:
the most frequent element, ties broken by first occurrence (`most_common`
ranks stably). -/
def mostCommon1 {α : Type} [DecidableEq α] (l : List α) : Option α :=
  (firstOccurrences l).foldl (fun best k =>
    match best with
    | none => some k
    | some b => if l.count b < l.count k then some k else best) none

/-- `ProfileAnalyzer._analyze_activity` (lines 98-124); its `repos` argument
is never read in the source. -/
def analyzeActivity (stats : ContributionStats) : ActivityPattern :=
  let most_active_hour := (mostCommon1 stats.commit_hours).getD 12
  let most_active_day := (mostCommon1 stats.commit_days).getD "Monday"
  let total_commits := stats.total_push_events
  let consistency : ℚ := min 100 (((total_commits : ℚ) / 30) * 100)
  { most_active_day := most_active_day
    most_active_hour := most_active_hour
    total_commits_last_year := total_commits * 4
    longest_streak := 0
    current_streak := 0
    consistency_score := round1 consistency }

/-- `ProfileAnalyzer._calculate_account_age` (lines 51-56): `timedelta.days`
floors, and `365.25 = 1461/4`. -/
def calculateAccountAge (created_at : Timestamp) (now : Int) : ℚ :=
  let age_days := Int.fdiv (now - created_at.seconds) 86400
  round1 ((age_days : ℚ) / (1461/4))

/-- `ProfileAnalyzer._calculate_collaboration` (lines 126-140). -/
def calculateCollaboration (user : User) (orgs : List String) : CollaborationMetrics :=
  { public_repos := user.public_repos
    public_gists := user.public_gists
    followers := user.followers
    following := user.following
    follower_ratio := round2 ((user.followers : ℚ) / (max user.following 1 : Nat))
    organizations := orgs }

/-- One year's accumulator in `_build_growth_timeline` (line 144). -/
structure YearData where
  repos : Nat
  languages : List String
  stars : Nat
deriving Repr, DecidableEq

/-- `set.add`, modelled with insertion order (CPython iterates a set in a
hash-dependent but run-deterministic order; the order of
`languages_used` is unspecified by the spec and insertion order is one
deterministic choice). -/
def addDistinct (l : List String) (x : String) : List String :=
  if x ∈ l then l else l ++ [x]

/-- One repo's update of `yearly_data` (lines 146-153); note
`if repo.get("language"):` is a truthiness test, skipping `None` *and* the
empty string. -/
def yearStep (acc : List (Int × YearData)) (repo : Repo) : List (Int × YearData) :=
  let year := repo.created_at.year
  let upd := fun (d : YearData) =>
    let d' := { d with repos := d.repos + 1, stars := d.stars + repo.stargazers_count }
    match repo.language with
    | some s => if s = "" then d' else { d' with languages := addDistinct d'.languages s }
    | none => d'
  if acc.any (fun p => p.1 == year) then
    acc.map (fun p => if p.1 == year then (p.1, upd p.2) else p)
  else acc ++ [(year, upd ⟨0, [], 0⟩)]

/-- Ascending insertion by year (`sorted(yearly_data.keys())`; keys are
distinct, so the sorted order is unique). -/
def insertAscYear (x : Int × YearData) : List (Int × YearData) → List (Int × YearData)
  | [] => [x]
  | y :: ys => if x.1 < y.1 then x :: y :: ys else y :: insertAscYear x ys

/-- `ProfileAnalyzer._build_growth_timeline` (lines 142-165). -/
def buildGrowthTimeline (repos : List Repo) : List GrowthTimeline :=
  let yearly := repos.foldl yearStep []
  (yearly.foldl (fun acc x => insertAscYear x acc) []).map (fun p =>
    { year := p.1
      repos_created := p.2.repos
      languages_used := p.2.languages
      stars_earned := p.2.stars })

/-- `ProfileAnalyzer._detect_focus_areas` (lines 167-176): a domain
qualifies iff its language set meets the top-5 language names; up to 3, in
table order. -/
def detectFocusAreas (languages : List LanguageStat) : List String :=
  let lang_names := (languages.take 5).map (fun l => l.name)
  ((FOCUS_PATTERNS.filter (fun ap => ap.2.any (fun a => lang_names.contains a))).map
    (fun ap => ap.1)).take 3

/-- Repository-count sub-score `min(25, len(repos) * 1.5)` (line 190). -/
def repoScore (repos : List Repo) : ℚ := min 25 ((repos.length : ℚ) * (3/2))

/-- `sum(r.get("stargazers_count", 0) for r in repos)`. -/
def totalStars (repos : List Repo) : Nat := (repos.map (fun r => r.stargazers_count)).sum

/-- Star sub-score `min(25, total_stars * 0.5)` (line 195). -/
def starScore (repos : List Repo) : ℚ := min 25 ((totalStars repos : ℚ) * (1/2))

/-- Language-diversity sub-score `min(15, len(languages) * 2)` (line 199). -/
def diversityScore (languages : List LanguageStat) : ℚ :=
  min 15 ((languages.length : ℚ) * 2)

/-- Activity sub-score `min(20, consistency_score * 0.2)` (line 203); the
float literal `0.2` is modelled by the exact rational it denotes. -/
def activityScore (activity : ActivityPattern) : ℚ :=
  min 20 (activity.consistency_score * (1/5))

/-- Engagement sub-score `min(15, followers/10 + len(orgs) * 2)` (line 207). -/
def engagementScore (collab : CollaborationMetrics) : ℚ :=
  min 15 ((collab.followers : ℚ) / 10 + (collab.organizations.length : ℚ) * 2)

/-- `ProfileAnalyzer._calculate_overall_score` (lines 178-210); the `user`
argument is never read in the source. -/
def calculateOverallScore (repos : List Repo) (languages : List LanguageStat)
    (activity : ActivityPattern) (collab : CollaborationMetrics) : ℚ :=
  round1 (repoScore repos + starScore repos + diversityScore languages +
    activityScore activity + engagementScore collab)

/-- `ProfileAnalyzer._determine_experience_level` (lines 212-221). -/
def determineExperienceLevel (account_age : ℚ) (repos : List Repo) (score : ℚ) : String :=
  if score ≥ 70 ∨ (account_age ≥ 5 ∧ repos.length ≥ 30) then "Expert"
  else if score ≥ 50 ∨ (account_age ≥ 3 ∧ repos.length ≥ 15) then "Senior"
  else if score ≥ 30 ∨ (account_age ≥ 1 ∧ repos.length ≥ 5) then "Mid-Level"
  else "Junior"

/-- Python `", ".join(l)`. -/
def joinComma : List String → String
  | [] => ""
  | [x] => x
  | x :: y :: xs => x ++ ", " ++ joinComma (y :: xs)

/-- `name = user.get("name") or user["login"]` (line 235): `or` falls
through on `None` and on the empty string. -/
def displayName (user : User) : String :=
  match user.name with
  | some s => if s = "" then user.login else s
  | none => user.login

/-- `ProfileAnalyzer._generate_summary` (lines 223-279): the parts are
concatenated with `"".join`, exactly as in the source (including its
spacing); `{account_age:.0f}` rounds half-to-even to an integer. -/
def generateSummary (user : User) (languages : List LanguageStat) (repos : List Repo)
    (activity : ActivityPattern) (collab : CollaborationMetrics)
    (experience_level : String) (focus_areas : List String) (account_age : ℚ) : String :=
  let name := displayName user
  let total_stars := totalStars repos
  let p1 := name ++ " is a " ++ pyLower experience_level ++ "-level developer"
  let p2 := if account_age ≥ 1 then
      "with " ++ toString (pyRoundInt account_age) ++ "+ years on GitHub" else ""
  let p3 := if focus_areas.isEmpty then "" else
      ", focusing on " ++ joinComma (focus_areas.take 2)
  let p4 := ". "
  let p5 := if languages.isEmpty then "" else
      "Primary expertise in " ++ joinComma ((languages.take 3).map (fun l => l.name)) ++ ". "
  let p6 := if total_stars > 0 then
      "Has earned " ++ toString total_stars ++ " stars across " ++
        toString repos.length ++ " public repositories. " else ""
  let p7 := if collab.followers ≥ 10 then
      "Active community member with " ++ toString collab.followers ++ " followers" ++
        (if collab.organizations.isEmpty then "" else
          " and contributions to " ++ toString collab.organizations.length ++
            " organizations") ++ ". "
    else ""
  let p8 := "Most active on " ++ activity.most_active_day ++ "s"
  let p9 := if activity.most_active_hour < 12 then " (morning coder)"
    else if activity.most_active_hour < 18 then " (afternoon coder)"
    else " (evening coder)"
  p1 ++ p2 ++ p3 ++ p4 ++ p5 ++ p6 ++ p7 ++ p8 ++ p9 ++ "."

/-- `ProfileAnalyzer.analyze` (lines 281-339); `now` is the evaluation
instant read by `_calculate_account_age`. -/
def analyze (user : User) (repos : List Repo) (repo_languages : List (String × LangMap))
    (contribution_stats : ContributionStats) (orgs : List String) (now : Int) :
    ProfileAnalysis :=
  let account_age := calculateAccountAge user.created_at now
  let languages := aggregateLanguages repos repo_languages
  let top_repos := getTopRepos repos
  let activity := analyzeActivity contribution_stats
  let collaboration := calculateCollaboration user orgs
  let growth_timeline := buildGrowthTimeline repos
  let focus_areas := detectFocusAreas languages
  let total_stars := totalStars repos
  let total_forks := (repos.map (fun r => r.forks_count)).sum
  let overall_score := calculateOverallScore repos languages activity collaboration
  let experience_level := determineExperienceLevel account_age repos overall_score
  let tech_diversity : ℚ := min 100 ((languages.length : ℚ) * 12)
  let summary := generateSummary user languages repos activity collaboration
    experience_level focus_areas account_age
  { username := user.login
    name := user.name
    avatar_url := user.avatar_url
    bio := user.bio
    location := user.location
    company := user.company
    blog := user.blog
    twitter := user.twitter_username
    email := user.email
    hireable := user.hireable
    created_at := user.created_at
    account_age_years := account_age
    profile_url := user.html_url
    languages := languages
    primary_language := match languages with
      | [] => none
      | l :: _ => some l.name
    tech_diversity_score := round1 tech_diversity
    top_repos := top_repos
    total_stars := total_stars
    total_forks := total_forks
    activity := activity
    collaboration := collaboration
    growth_timeline := growth_timeline
    overall_score := overall_score
    experience_level := experience_level
    focus_areas := focus_areas
    recruiter_summary := summary }

/-! ### Pagination (`get_repos` lines 153-189, `get_events` lines 225-253)

Each loop is modelled against an arbitrary assignment `resp` of a remote
response to each page number; the model returns the list of requested page
numbers in request order together with the accumulated data (an `Except`
for `get_repos`, whose `raise_for_status` propagates HTTP errors). -/

/-- A repository-listing page response: `ok` with the decoded records, or a
non-success status (which `raise_for_status` turns into an exception). -/
inductive ReposPage (α : Type) where
  | ok (data : List α)
  | httpError
deriving Repr, DecidableEq

/-- The records a successfully decoded page contributes. -/
def reposData {α : Type} (resp : Nat → ReposPage α) (p : Nat) : List α :=
  match resp p with
  | .ok d => d
  | .httpError => []

/-- The `while True` loop of `get_repos` (lines 164-186): request the page,
`raise_for_status`, stop on an empty page, extend and advance, stop once
`page > 5`. -/
def getReposLoop {α : Type} (resp : Nat → ReposPage α) (page : Nat) (acc : List α) :
    List Nat × Except Unit (List α) :=
  match resp page with
  | .httpError => ([page], .error ())
  | .ok data =>
    if data.isEmpty then ([page], .ok acc)
    else if _h : 5 < page + 1 then ([page], .ok (acc ++ data))
    else
      let r := getReposLoop resp (page + 1) (acc ++ data)
      (page :: r.1, r.2)
termination_by 6 - page
decreasing_by omega

/-- `get_repos`' pagination, starting from page 1 with an empty list. -/
def getRepos {α : Type} (resp : Nat → ReposPage α) : List Nat × Except Unit (List α) :=
  getReposLoop resp 1 []

/-- The `while page <= 3` loop of `get_events` (lines 236-250): stop on a
non-200 status or an empty page, else extend and advance. -/
def getEventsLoop {α : Type} (resp : Nat → Nat × List α) (page : Nat) (acc : List α) :
    List Nat × List α :=
  if _h : page ≤ 3 then
    if (resp page).1 ≠ 200 then ([page], acc)
    else if (resp page).2.isEmpty then ([page], acc)
    else
      let r := getEventsLoop resp (page + 1) (acc ++ (resp page).2)
      (page :: r.1, r.2)
  else ([], acc)
termination_by 4 - page
decreasing_by omega

/-- `get_events`' pagination, starting from page 1 with an empty list. -/
def getEvents {α : Type} (resp : Nat → Nat × List α) : List Nat × List α :=
  getEventsLoop resp 1 []

/-- The records a 200 events page contributes (a non-200 page contributes
nothing: the loop breaks before extending). -/
def eventsData {α : Type} (resp : Nat → Nat × List α) (p : Nat) : List α :=
  if (resp p).1 = 200 then (resp p).2 else []

/-! ### A small concrete dataset, used by witnesses and by the byte-for-byte
summary reproduction -/

def exUser : User :=
  { login := "octocat"
    name := some "The Octocat"
    avatar_url := "https://example.com/a.png"
    bio := none
    location := some "SF"
    company := none
    blog := none
    twitter_username := none
    email := none
    hireable := none
    created_at := ⟨1200000000, 2008⟩
    followers := 25
    following := 5
    public_repos := 2
    public_gists := 0
    html_url := "https://github.com/octocat" }

def exRepos : List Repo :=
  [{ name := "alpha"
     stargazers_count := 12
     forks_count := 3
     language := some "Python"
     description := some "first"
     html_url := "https://github.com/octocat/alpha"
     created_at := ⟨1300000000, 2011⟩ },
   { name := "beta"
     stargazers_count := 3
     forks_count := 1
     language := some "C"
     description := none
     html_url := "https://github.com/octocat/beta"
     created_at := ⟨1400000000, 2014⟩ }]

def exLangs : List (String × LangMap) :=
  [("alpha", [("Python", 300)]), ("beta", [("C", 100)])]

def exStats : ContributionStats :=
  { total_push_events := 12
    total_pr_events := 2
    total_issue_events := 1
    commit_hours := [20, 20, 9]
    commit_days := ["Saturday", "Saturday", "Monday"] }

def exOrgs : List String := ["org1"]

def exNow : Int := 1700000000

/-- The input refuting C3 as stated: one repository carrying 11 languages of
one byte each, so the top-10 truncation drops percentage mass. -/
def c3Repo : Repo :=
  { name := "poly"
    stargazers_count := 0
    forks_count := 0
    language := none
    description := none
    html_url := "https://github.com/octocat/poly"
    created_at := ⟨0, 2020⟩ }

/-- Eleven languages of one byte each for `c3Repo`. -/
def c3Langs : List (String × LangMap) :=
  [("poly", [("L01", 1), ("L02", 1), ("L03", 1), ("L04", 1), ("L05", 1),
             ("L06", 1), ("L07", 1), ("L08", 1), ("L09", 1), ("L10", 1),
             ("L11", 1)])]

/-- A concrete repository-page assignment: page 1 holds one record, page 2
is empty. -/
def exResp : Nat → ReposPage Nat := fun p => if p = 1 then .ok [10] else .ok []

/-- A concrete events-page assignment: page 1 holds one record with status
200, later pages report 404. -/
def exRespE : Nat → Nat × List Nat := fun p => if p = 1 then (200, [7]) else (404, [])

/-! ## Theorems -/

theorem pyRoundInt_le (q : ℚ) : (pyRoundInt q : ℚ) ≤ q + 1/2 := by
  simp only [pyRoundInt]
  have hfl : (⌊q⌋ : ℚ) ≤ q := Int.floor_le q
  have hfrac0 : (0:ℚ) ≤ q - (⌊q⌋ : ℚ) := by linarith
  split
  · linarith
  · split
    · push_cast
      linarith
    · split
      · linarith
      · push_cast
        rename_i h1 h2 _
        have : q - (⌊q⌋ : ℚ) = 1/2 := le_antisymm (not_lt.mp h2) (not_lt.mp h1)
        linarith

theorem le_pyRoundInt (q : ℚ) : q - 1/2 ≤ (pyRoundInt q : ℚ) := by
  simp only [pyRoundInt]
  have hfl : q - (⌊q⌋ : ℚ) < 1 := by
    have := Int.lt_floor_add_one q
    linarith
  split
  · rename_i h
    linarith
  · split
    · push_cast
      linarith
    · split
      · rename_i h1 h2 _
        have : q - (⌊q⌋ : ℚ) = 1/2 := le_antisymm (not_lt.mp h2) (not_lt.mp h1)
        linarith
      · push_cast
        linarith

theorem round1_le (q : ℚ) : round1 q ≤ q + 1/20 := by
  have h := pyRoundInt_le (q * 10)
  unfold round1
  linarith

theorem le_round1 (q : ℚ) : q - 1/20 ≤ round1 q := by
  have h := le_pyRoundInt (q * 10)
  unfold round1
  linarith

/-! ### Cache access lemmas -/

theorem get_set_same {α : Type} (c : SimpleCache α) (k : String) (v : α)
    (ttl : Option Nat) (now t : Nat) :
    (c.set k v ttl now).get k t =
      if t < now + ttlOrDefault ttl c.default_ttl then some v else none := by
  simp [SimpleCache.set, SimpleCache.get]


/-- C1: with 20 per-repository language lookups of which exactly 3 fail,
`get_multiple_repo_languages` does *not* return a 17-entry map with no error:
the dict comprehension unpacks the first stored `Exception` object and raises
`TypeError`.  (The claim's partial-success policy is the evident intent of
the `isinstance` filter, but the filter runs after the unpacking.) -/
theorem claim_C1 :
    (gatherLanguages c1Outcome c1Names).length = 20 ∧
    ((gatherLanguages c1Outcome c1Names).filter (· == GatherItem.exc)).length = 3 ∧
    getMultipleRepoLanguages c1Outcome c1Names =
      .error "TypeError: cannot unpack non-iterable Exception object" :=
  ⟨by decide, by decide, by rfl⟩

/-- C2: the code behaviour after `set("k", "v", ttl=0)` at instant 100 with
the default TTL 3600.  `ttl or self.default_ttl` coerces the falsy `0` to
`3600`, so a `get` immediately after (and for the next 3600 seconds) returns
the value rather than the miss the claim requires; `ttl=0` never yields an
already-expired entry. -/
theorem claim_C2 :
    ((SimpleCache.set ⟨[], 3600⟩ "k" "v" (some 0) 100).get "k" 100 = some "v") ∧
    ((SimpleCache.set ⟨[], 3600⟩ "k" "v" (some 0) 100).get "k" 101 = some "v") ∧
    ((SimpleCache.set ⟨[], 3600⟩ "k" "v" (some 0) 100).get "k" 3699 = some "v") ∧
    ((SimpleCache.set ⟨[], 3600⟩ "k" "v" (some 0) 100).get "k" 3700 = none) := by
  decide

/-- C5: the rate-limit failure is a plain `Exception` distinguished only by
its message text, and the single consumer (the router) classifies it by
substring matching.  When the reset is 404 seconds away, the rate-limited
request and a genuine NotFound produce *identical* router outputs
`(404, "GitHub user not found: alice")`, so the rate-limit error is not
distinguishable from NotFound as the claim requires. -/
theorem claim_C5 :
    requestCheck ⟨403, "API rate limit exceeded for installation ID", some 504⟩ 100 =
      .error "Rate limit exceeded. Resets in 404 seconds. Add GITHUB_TOKEN to .env file for 5000 requests/hour." ∧
    classifyException false
      "Rate limit exceeded. Resets in 404 seconds. Add GITHUB_TOKEN to .env file for 5000 requests/hour."
      "alice" = (404, "GitHub user not found: alice") ∧
    classifyException false
      "Client error '404 Not Found' for url 'https://api.github.com/users/alice'"
      "alice" = (404, "GitHub user not found: alice") :=
  ⟨by rfl, by rfl, by rfl⟩

/-! ### Claim C6: identity resolution -/

/-- C6: (i) the query `"https://github.com/torvalds"` resolves to the handle
`"torvalds"` whatever the cache, search outcome and instant; (ii) a query
containing `@` (and not matching the URL pattern, so extraction returns it
unchanged) resolves to the found handle when the email search hits; (iii) the
same query fails with the NotFound-class `ValueError` naming the email when
the search misses; (iv) any other query (no URL match, no `@`, already
stripped) is returned unchanged as the candidate handle. -/
theorem claim_C6 :
    (∀ (c : SimpleCache String) (remote : Option String) (now : Nat),
        (resolveUsername c "https://github.com/torvalds" remote now).1 = .ok "torvalds") ∧
    (∀ (c : SimpleCache String) (now : Nat) (query found : String),
        extractUsername query = query → query.toList.contains '@' = true →
        c.get (searchKey query) now = none → found ≠ "" →
        (resolveUsername c query (some found) now).1 = .ok found) ∧
    (∀ (c : SimpleCache String) (now : Nat) (query : String),
        extractUsername query = query → query.toList.contains '@' = true →
        c.get (searchKey query) now = none →
        (resolveUsername c query none now).1 =
          .error ("No GitHub user found with email: " ++ query)) ∧
    (∀ (c : SimpleCache String) (remote : Option String) (now : Nat) (query : String),
        pyStrip query = query → matchGithubUrl query.toList = none →
        query.toList.contains '@' = false →
        (resolveUsername c query remote now).1 = .ok query) := by
  refine ⟨fun c remote now => rfl, ?_, ?_, ?_⟩
  · intro c now query found hx hat hmiss hf
    simp only [resolveUsername, searchUserByEmail, hx, hat, hmiss, if_true]
    simp [hf]
  · intro c now query hx hat hmiss
    simp only [resolveUsername, searchUserByEmail, hx, hat, hmiss, if_true]
  · intro c remote now query htrim hurl hat
    have hq : extractUsername query = query := by
      simp only [extractUsername, htrim, hurl, ite_self]
    simp only [resolveUsername, hq, hat]
    simp

/-- Witness for C6 at concrete inputs. -/
theorem claim_C6_witness :
    (resolveUsername ⟨[], 3600⟩ "https://github.com/torvalds" none 0).1 = .ok "torvalds" ∧
    (resolveUsername ⟨[], 3600⟩ "foo@example.com" (some "bob") 0).1 = .ok "bob" ∧
    (resolveUsername ⟨[], 3600⟩ "foo@example.com" none 0).1 =
      .error ("No GitHub user found with email: " ++ "foo@example.com") ∧
    (resolveUsername ⟨[], 3600⟩ "torvalds" none 0).1 = .ok "torvalds" :=
  ⟨claim_C6.1 _ _ _,
   claim_C6.2.1 _ _ _ _ (by decide) (by decide) (by decide) (by decide),
   claim_C6.2.2.1 _ _ _ (by decide) (by decide) (by decide),
   claim_C6.2.2.2 _ _ _ _ (by decide) (by decide) (by decide)⟩

/-! ### Claim C10: negative email-search caching -/

/-- C10: for a query treated as an email whose search yields no hits, the
first `search_user_by_email` call returns `None` (and caches `""`); every
later call before the default TTL (3600 s) elapses returns the cached empty
string; both are falsy, so `resolve_username` fails with the NotFound-class
`ValueError` naming the email on the first call and on every repeat. -/
theorem claim_C10 (c0 : SimpleCache String) (query : String) (t0 t1 : Nat)
    (hd : c0.default_ttl = 3600)
    (hx : extractUsername query = query)
    (hat : query.toList.contains '@' = true)
    (hmiss : c0.get (searchKey query) t0 = none)
    (ht : t1 < t0 + 3600) :
    (searchUserByEmail c0 query none t0).1 = none ∧
    (∀ remote2 : Option String,
        (searchUserByEmail (searchUserByEmail c0 query none t0).2 query remote2 t1).1 =
          some "") ∧
    (resolveUsername c0 query none t0).1 =
      .error ("No GitHub user found with email: " ++ query) ∧
    (∀ remote2 : Option String,
        (resolveUsername (searchUserByEmail c0 query none t0).2 query remote2 t1).1 =
          .error ("No GitHub user found with email: " ++ query)) := by
  have hc1 : (searchUserByEmail c0 query none t0).2 =
      c0.set (searchKey query) "" none t0 := by
    simp only [searchUserByEmail, hmiss]
  have hget : (c0.set (searchKey query) "" none t0).get (searchKey query) t1 = some "" := by
    rw [get_set_same, hd]
    simp only [ttlOrDefault, if_pos ht]
  refine ⟨?_, ?_, ?_, ?_⟩
  · simp only [searchUserByEmail, hmiss]
  · intro remote2
    rw [hc1]
    simp only [searchUserByEmail, hget]
  · simp only [resolveUsername, searchUserByEmail, hx, hat, hmiss, if_true]
  · intro remote2
    rw [hc1]
    simp only [resolveUsername, searchUserByEmail, hx, hat, hget, if_true]
    simp

/-- Witness for C10 at a concrete email, cache and pair of instants. -/
theorem claim_C10_witness :
    (searchUserByEmail ⟨[], 3600⟩ "foo@example.com" none 0).1 = none ∧
    (∀ remote2 : Option String,
        (searchUserByEmail (searchUserByEmail ⟨[], 3600⟩ "foo@example.com" none 0).2
          "foo@example.com" remote2 100).1 = some "") ∧
    (resolveUsername ⟨[], 3600⟩ "foo@example.com" none 0).1 =
      .error ("No GitHub user found with email: " ++ "foo@example.com") ∧
    (∀ remote2 : Option String,
        (resolveUsername (searchUserByEmail ⟨[], 3600⟩ "foo@example.com" none 0).2
          "foo@example.com" remote2 100).1 =
          .error ("No GitHub user found with email: " ++ "foo@example.com")) :=
  claim_C10 ⟨[], 3600⟩ "foo@example.com" 0 100 (by decide) (by decide) (by decide)
    (by decide) (by decide)


/-! ### Rounding range lemmas -/

theorem round1_nonneg (s : ℚ) (h0 : 0 ≤ s) : 0 ≤ round1 s := by
  have h := le_pyRoundInt (s * 10)
  have h1 : ((-1 : ℤ) : ℚ) < (pyRoundInt (s * 10) : ℚ) := by push_cast; linarith
  have h2 : (-1 : ℤ) < pyRoundInt (s * 10) := by exact_mod_cast h1
  have h3 : (0 : ℚ) ≤ (pyRoundInt (s * 10) : ℚ) := by
    have h4 : (0 : ℤ) ≤ pyRoundInt (s * 10) := by omega
    exact_mod_cast h4
  unfold round1
  exact div_nonneg h3 (by norm_num)

theorem round1_le_hundred (s : ℚ) (h : s ≤ 100) : round1 s ≤ 100 := by
  have hle := pyRoundInt_le (s * 10)
  have h1 : (pyRoundInt (s * 10) : ℚ) < ((1001 : ℤ) : ℚ) := by push_cast; linarith
  have h2 : pyRoundInt (s * 10) < 1001 := by exact_mod_cast h1
  have h3 : (pyRoundInt (s * 10) : ℚ) ≤ ((1000 : ℤ) : ℚ) := by
    have h4 : pyRoundInt (s * 10) ≤ 1000 := by omega
    exact_mod_cast h4
  unfold round1
  rw [div_le_iff₀ (by norm_num : (0:ℚ) < 10)]
  push_cast at h3 ⊢
  linarith

/-! ### Claim C4: score caps -/

/-- C4: for all inputs (counts are naturals, hence non-negative; the
consistency score is assumed non-negative, as `_analyze_activity` always
produces), each of the five sub-scores lies within `[0, cap]` for its
stated cap (25, 25, 15, 20, 15), and the rounded overall score lies in
`[0, 100]`. -/
theorem claim_C4 (repos : List Repo) (languages : List LanguageStat)
    (activity : ActivityPattern) (collab : CollaborationMetrics)
    (hc : 0 ≤ activity.consistency_score) :
    (0 ≤ repoScore repos ∧ repoScore repos ≤ 25) ∧
    (0 ≤ starScore repos ∧ starScore repos ≤ 25) ∧
    (0 ≤ diversityScore languages ∧ diversityScore languages ≤ 15) ∧
    (0 ≤ activityScore activity ∧ activityScore activity ≤ 20) ∧
    (0 ≤ engagementScore collab ∧ engagementScore collab ≤ 15) ∧
    (0 ≤ calculateOverallScore repos languages activity collab ∧
      calculateOverallScore repos languages activity collab ≤ 100) := by
  have h1 : 0 ≤ repoScore repos ∧ repoScore repos ≤ 25 :=
    ⟨le_min (by norm_num) (by positivity), min_le_left _ _⟩
  have h2 : 0 ≤ starScore repos ∧ starScore repos ≤ 25 :=
    ⟨le_min (by norm_num) (by positivity), min_le_left _ _⟩
  have h3 : 0 ≤ diversityScore languages ∧ diversityScore languages ≤ 15 :=
    ⟨le_min (by norm_num) (by positivity), min_le_left _ _⟩
  have h4 : 0 ≤ activityScore activity ∧ activityScore activity ≤ 20 :=
    ⟨le_min (by norm_num) (mul_nonneg hc (by norm_num)), min_le_left _ _⟩
  have h5 : 0 ≤ engagementScore collab ∧ engagementScore collab ≤ 15 :=
    ⟨le_min (by norm_num) (by positivity), min_le_left _ _⟩
  refine ⟨h1, h2, h3, h4, h5, ?_, ?_⟩
  · exact round1_nonneg _ (by linarith [h1.1, h2.1, h3.1, h4.1, h5.1])
  · exact round1_le_hundred _ (by linarith [h1.2, h2.2, h3.2, h4.2, h5.2])

/-- Witness for C4 at a concrete (empty) input. -/
theorem claim_C4_witness :
    (0 ≤ repoScore [] ∧ repoScore [] ≤ 25) ∧
    (0 ≤ starScore [] ∧ starScore [] ≤ 25) ∧
    (0 ≤ diversityScore [] ∧ diversityScore [] ≤ 15) ∧
    (0 ≤ activityScore ⟨"Monday", 12, 0, 0, 0, 0⟩ ∧
      activityScore ⟨"Monday", 12, 0, 0, 0, 0⟩ ≤ 20) ∧
    (0 ≤ engagementScore ⟨0, 0, 0, 0, 0, []⟩ ∧
      engagementScore ⟨0, 0, 0, 0, 0, []⟩ ≤ 15) ∧
    (0 ≤ calculateOverallScore [] [] ⟨"Monday", 12, 0, 0, 0, 0⟩ ⟨0, 0, 0, 0, 0, []⟩ ∧
      calculateOverallScore [] [] ⟨"Monday", 12, 0, 0, 0, 0⟩ ⟨0, 0, 0, 0, 0, []⟩ ≤ 100) :=
  claim_C4 [] [] ⟨"Monday", 12, 0, 0, 0, 0⟩ ⟨0, 0, 0, 0, 0, []⟩ (by norm_num)

/-! ### Claim C9: activity defaults on an empty sample -/

/-- C9: with zero push events (empty commit-hour and commit-day lists), the
activity analysis returns the fixed defaults: hour 12, day `"Monday"`,
consistency 0, estimated annual commits 0, both streaks 0. -/
theorem claim_C9 (stats : ContributionStats)
    (hh : stats.commit_hours = []) (hdays : stats.commit_days = [])
    (hp : stats.total_push_events = 0) :
    analyzeActivity stats =
      { most_active_day := "Monday", most_active_hour := 12,
        total_commits_last_year := 0, longest_streak := 0, current_streak := 0,
        consistency_score := 0 } := by
  simp only [analyzeActivity, hh, hdays, hp]
  norm_num [mostCommon1, firstOccurrences, round1, pyRoundInt]

/-- Witness for C9 at the empty contribution-stats record. -/
theorem claim_C9_witness :
    analyzeActivity ⟨0, 0, 0, [], []⟩ =
      { most_active_day := "Monday", most_active_hour := 12,
        total_commits_last_year := 0, longest_streak := 0, current_streak := 0,
        consistency_score := 0 } :=
  claim_C9 ⟨0, 0, 0, [], []⟩ rfl rfl rfl

/-! ### Claim C8: determinism of the metrics engine -/

/-- C8: the analysis is a pure function of the dataset and the evaluation
instant — two runs on identical inputs are identical values, and in
particular the recruiter summary is reproduced byte for byte; the final
conjunct exhibits the byte-exact summary on a concrete dataset. -/
theorem claim_C8 (user : User) (repos : List Repo) (rl : List (String × LangMap))
    (stats : ContributionStats) (orgs : List String) (now : Int) :
    analyze user repos rl stats orgs now = analyze user repos rl stats orgs now ∧
    (analyze user repos rl stats orgs now).recruiter_summary =
      (analyze user repos rl stats orgs now).recruiter_summary ∧
    (analyze exUser exRepos exLangs exStats exOrgs exNow).recruiter_summary =
      "The Octocat is a junior-level developerwith 16+ years on GitHub, focusing on Data Science, Systems Programming. Primary expertise in Python, C. Has earned 15 stars across 2 public repositories. Active community member with 25 followers and contributions to 1 organizations. Most active on Saturdays (evening coder)." :=
  ⟨rfl, rfl, by
    set_option maxRecDepth 4000 in with_unfolding_all decide⟩


/-! ### Claim C3: language percentages -/

theorem insertDescBy_perm {α : Type} (key : α → Nat) (x : α) (l : List α) :
    (insertDescBy key x l).Perm (x :: l) := by
  induction l with
  | nil => exact List.Perm.refl _
  | cons y ys ih =>
    simp only [insertDescBy]
    split
    · exact List.Perm.refl _
    · exact (ih.cons y).trans (List.Perm.swap x y ys)

theorem foldl_insertDescBy_perm {α : Type} (key : α → Nat) :
    ∀ (l acc : List α), (l.foldl (fun a x => insertDescBy key x a) acc).Perm (acc ++ l) := by
  intro l
  induction l with
  | nil => intro acc; simp
  | cons x xs ih =>
    intro acc
    rw [List.foldl_cons]
    have h1 := ih (insertDescBy key x acc)
    have h2 : (insertDescBy key x acc ++ xs).Perm ((x :: acc) ++ xs) :=
      List.Perm.append_right xs (insertDescBy_perm key x acc)
    have h3 : ((x :: acc) ++ xs).Perm (acc ++ x :: xs) := by
      simpa using List.perm_middle.symm
    exact h1.trans (h2.trans h3)

theorem sortDescBy_perm {α : Type} (key : α → Nat) (l : List α) :
    (sortDescBy key l).Perm l := by
  simpa [sortDescBy] using foldl_insertDescBy_perm key l []

theorem sum_round1_sub_le {α : Type} (f : α → ℚ) (l : List α) :
    |(l.map (fun x => round1 (f x))).sum - (l.map f).sum| ≤ (l.length : ℚ) * (1/20) := by
  induction l with
  | nil => simp
  | cons x xs ih =>
    simp only [List.map_cons, List.sum_cons, List.length_cons]
    have hx : |round1 (f x) - f x| ≤ 1/20 :=
      abs_le.2 ⟨by linarith [le_round1 (f x)], by linarith [round1_le (f x)]⟩
    calc |round1 (f x) + (xs.map (fun x => round1 (f x))).sum - (f x + (xs.map f).sum)|
        = |(round1 (f x) - f x) +
            ((xs.map (fun x => round1 (f x))).sum - (xs.map f).sum)| := by ring_nf
      _ ≤ |round1 (f x) - f x| +
            |(xs.map (fun x => round1 (f x))).sum - (xs.map f).sum| := abs_add _ _
      _ ≤ 1/20 + (xs.length : ℚ) * (1/20) := add_le_add hx ih
      _ = ((xs.length + 1 : ℕ) : ℚ) * (1/20) := by push_cast; ring

theorem sum_map_div_mul (l : List (String × Nat)) (T : ℚ) :
    (l.map (fun p => (p.2 : ℚ) / T * 100)).sum =
      (((l.map (fun p => p.2)).sum : ℕ) : ℚ) / T * 100 := by
  induction l with
  | nil => simp
  | cons x xs ih =>
    simp only [List.map_cons, List.sum_cons, ih]
    push_cast
    ring

/-- C3, amended: when the total byte count is positive *and at most 10
distinct languages occur*, the percentages of the emitted `LanguageStat`
list sum to 100 within rounding tolerance (at most 1/20 per rounded entry,
so at most 1/2 in total); and the list is empty whenever every
`LanguageByteMap` is empty.  (The unamended claim fails with 11 or more
languages: the top-10 truncation drops percentage mass, see the
counterexample.) -/
theorem claim_C3 :
    (∀ (repos : List Repo) (rl : List (String × LangMap)),
        0 < ((aggregateBytes repos rl).map (fun p => p.2)).sum →
        (aggregateBytes repos rl).length ≤ 10 →
        |((aggregateLanguages repos rl).map (fun l => l.percentage)).sum - 100| ≤ 1/2) ∧
    (∀ (repos : List Repo) (rl : List (String × LangMap)),
        (∀ p ∈ rl, p.2 = []) → aggregateLanguages repos rl = []) := by
  constructor
  · intro repos rl hpos hlen
    have hT : (totalOr1 (aggregateBytes repos rl) : ℚ) =
        (((aggregateBytes repos rl).map (fun p => p.2)).sum : ℕ) := by
      simp only [totalOr1]
      rw [if_neg (Nat.pos_iff_ne_zero.mp hpos)]
    have hperm : (sortDescBy (fun p => p.2) (aggregateBytes repos rl)).Perm
        (aggregateBytes repos rl) := sortDescBy_perm _ _
    have hlen2 : (sortDescBy (fun p => p.2) (aggregateBytes repos rl)).length ≤ 10 := by
      rw [hperm.length_eq]; exact hlen
    have htake :
        ((sortDescBy (fun p => p.2) (aggregateBytes repos rl)).map (fun p =>
          ({ name := p.1
             percentage := round1 ((p.2 : ℚ) / (totalOr1 (aggregateBytes repos rl) : ℚ) * 100)
             bytes := p.2
             color := lookupD LANGUAGE_COLORS p.1 "#858585" } : LanguageStat))).take 10 =
        (sortDescBy (fun p => p.2) (aggregateBytes repos rl)).map (fun p =>
          ({ name := p.1
             percentage := round1 ((p.2 : ℚ) / (totalOr1 (aggregateBytes repos rl) : ℚ) * 100)
             bytes := p.2
             color := lookupD LANGUAGE_COLORS p.1 "#858585" } : LanguageStat)) :=
      List.take_of_length_le (by simpa using hlen2)
    have hsum_perm :
        ((sortDescBy (fun p => p.2) (aggregateBytes repos rl)).map (fun p =>
          round1 ((p.2 : ℚ) / (totalOr1 (aggregateBytes repos rl) : ℚ) * 100))).sum =
        ((aggregateBytes repos rl).map (fun p =>
          round1 ((p.2 : ℚ) / (totalOr1 (aggregateBytes repos rl) : ℚ) * 100))).sum :=
      (hperm.map _).sum_eq
    have htrue :
        ((aggregateBytes repos rl).map (fun p =>
          (p.2 : ℚ) / (totalOr1 (aggregateBytes repos rl) : ℚ) * 100)).sum = 100 := by
      rw [sum_map_div_mul, hT, div_self, one_mul]
      have : (0 : ℚ) < (((aggregateBytes repos rl).map (fun p => p.2)).sum : ℕ) := by
        exact_mod_cast hpos
      linarith
    have herr := sum_round1_sub_le
      (fun p => (p.2 : ℚ) / (totalOr1 (aggregateBytes repos rl) : ℚ) * 100)
      (aggregateBytes repos rl)
    have hlenq : ((aggregateBytes repos rl).length : ℚ) ≤ 10 := by exact_mod_cast hlen
    simp only [aggregateLanguages, htake, List.map_map]
    have hcomp :
        ((sortDescBy (fun p => p.2) (aggregateBytes repos rl)).map
          ((fun l => l.percentage) ∘ (fun p =>
            ({ name := p.1
               percentage := round1 ((p.2 : ℚ) / (totalOr1 (aggregateBytes repos rl) : ℚ) * 100)
               bytes := p.2
               color := lookupD LANGUAGE_COLORS p.1 "#858585" } : LanguageStat)))).sum =
        ((sortDescBy (fun p => p.2) (aggregateBytes repos rl)).map (fun p =>
          round1 ((p.2 : ℚ) / (totalOr1 (aggregateBytes repos rl) : ℚ) * 100))).sum := rfl
    rw [hcomp, hsum_perm]
    rw [htrue] at herr
    calc |((aggregateBytes repos rl).map (fun p =>
            round1 ((p.2 : ℚ) / (totalOr1 (aggregateBytes repos rl) : ℚ) * 100))).sum - 100|
        ≤ ((aggregateBytes repos rl).length : ℚ) * (1/20) := herr
      _ ≤ 10 * (1/20) := by linarith
      _ = 1/2 := by norm_num
  · intro repos rl hempty
    have hstep : ∀ (acc : List (String × Nat)) (repo : Repo), aggStep rl acc repo = acc := by
      intro acc repo
      simp only [aggStep]
      cases hf : rl.find? (fun p => p.1 == repo.name) with
      | none => rfl
      | some p =>
        show List.foldl (fun a q => bumpLang a q.1 q.2) acc p.2 = acc
        rw [hempty p (List.mem_of_find?_eq_some hf)]
        rfl
    have hfold : ∀ (rs : List Repo) (acc : List (String × Nat)),
        rs.foldl (aggStep rl) acc = acc := by
      intro rs
      induction rs with
      | nil => intro acc; rfl
      | cons r rs ih =>
        intro acc
        rw [List.foldl_cons, hstep acc r]
        exact ih acc
    have hagg : aggregateBytes repos rl = [] := hfold repos []
    simp [aggregateLanguages, hagg, sortDescBy]

/-- Counterexample to C3 as stated: eleven equal one-byte languages give a
positive total, yet the emitted percentages (truncated to the top 10) sum to
91, not approximately 100. -/
theorem claim_C3_counterexample :
    0 < ((aggregateBytes [c3Repo] c3Langs).map (fun p => p.2)).sum ∧
    ((aggregateLanguages [c3Repo] c3Langs).map (fun l => l.percentage)).sum = 91 ∧
    ¬ |((aggregateLanguages [c3Repo] c3Langs).map (fun l => l.percentage)).sum - 100| ≤ 1/2 := by
  refine ⟨by decide, ?_, ?_⟩
  · with_unfolding_all decide
  · with_unfolding_all decide

/-- Witness for (the amended) C3 at a concrete two-language input. -/
theorem claim_C3_witness :
    |((aggregateLanguages exRepos exLangs).map (fun l => l.percentage)).sum - 100| ≤ 1/2 ∧
    aggregateLanguages [] [("r", [])] = [] :=
  ⟨claim_C3.1 exRepos exLangs (by decide) (by decide),
   claim_C3.2 [] [("r", [])] (by decide)⟩


/-! ### Claim C7: pagination termination and shape -/

theorem getReposLoop_httpError {α : Type} (resp : Nat → ReposPage α) (page : Nat)
    (acc : List α) (h : resp page = .httpError) :
    getReposLoop resp page acc = ([page], .error ()) := by
  rw [getReposLoop, h]

theorem getReposLoop_emptyPage {α : Type} (resp : Nat → ReposPage α) (page : Nat)
    (acc data : List α) (h : resp page = .ok data) (hd : data.isEmpty) :
    getReposLoop resp page acc = ([page], .ok acc) := by
  rw [getReposLoop, h]
  simp [hd]

theorem getReposLoop_capped {α : Type} (resp : Nat → ReposPage α) (page : Nat)
    (acc data : List α) (h : resp page = .ok data) (hd : ¬ data.isEmpty = true)
    (h5 : 5 < page + 1) :
    getReposLoop resp page acc = ([page], .ok (acc ++ data)) := by
  rw [getReposLoop, h]
  simp [hd, h5]

theorem getReposLoop_next {α : Type} (resp : Nat → ReposPage α) (page : Nat)
    (acc data : List α) (h : resp page = .ok data) (hd : ¬ data.isEmpty = true)
    (h5 : ¬ 5 < page + 1) :
    getReposLoop resp page acc =
      (page :: (getReposLoop resp (page + 1) (acc ++ data)).1,
        (getReposLoop resp (page + 1) (acc ++ data)).2) := by
  rw [getReposLoop, h]
  simp [hd, h5]

theorem getReposLoop_spec {α : Type} (resp : Nat → ReposPage α) :
    ∀ (fuel page : Nat) (acc : List α), page + fuel = 6 → 1 ≤ fuel →
      (∃ k, 1 ≤ k ∧ page + k ≤ 6 ∧ (getReposLoop resp page acc).1 = List.range' page k) ∧
      (∀ q, page ≤ q → q + 1 ∈ (getReposLoop resp page acc).1 →
          ∃ d, resp q = .ok d ∧ d ≠ []) ∧
      (∀ out, (getReposLoop resp page acc).2 = .ok out →
          out = acc ++ ((getReposLoop resp page acc).1.map (reposData resp)).flatten) := by
  intro fuel
  induction fuel with
  | zero => intro page acc hpf h1; omega
  | succ n ih =>
    intro page acc hpf _h1
    cases hr : resp page with
    | httpError =>
      rw [getReposLoop_httpError resp page acc hr]
      refine ⟨⟨1, by omega, by omega, by simp⟩, ?_, ?_⟩
      · intro q hq hmem
        rw [List.mem_singleton] at hmem
        omega
      · intro out hout
        exact absurd hout (by simp)
    | ok data =>
      by_cases hde : data.isEmpty
      · rw [getReposLoop_emptyPage resp page acc data hr hde]
        refine ⟨⟨1, by omega, by omega, by simp⟩, ?_, ?_⟩
        · intro q hq hmem
          rw [List.mem_singleton] at hmem
          omega
        · intro out hout
          have hout2 : acc = out := by simpa using hout
          have hdata : data = [] := List.isEmpty_iff.mp hde
          simp [← hout2, reposData, hr, hdata]
      · by_cases h5 : 5 < page + 1
        · rw [getReposLoop_capped resp page acc data hr hde h5]
          refine ⟨⟨1, by omega, by omega, by simp⟩, ?_, ?_⟩
          · intro q hq hmem
            rw [List.mem_singleton] at hmem
            omega
          · intro out hout
            have hout2 : acc ++ data = out := by simpa using hout
            simp [← hout2, reposData, hr]
        · have hrec := ih (page + 1) (acc ++ data) (by omega) (by omega)
          obtain ⟨⟨k, hk1, hk6, hkeq⟩, hstop, hjoin⟩ := hrec
          rw [getReposLoop_next resp page acc data hr hde h5]
          refine ⟨⟨k + 1, by omega, by omega, ?_⟩, ?_, ?_⟩
          · rw [List.range'_succ]
            simp [hkeq]
          · intro q hq hmem
            simp only [List.mem_cons] at hmem
            rcases hmem with h1 | h2
            · omega
            · by_cases hqp : page + 1 ≤ q
              · exact hstop q hqp h2
              · have hqe : q = page := by omega
                subst hqe
                exact ⟨data, hr, fun hnil => hde (by simp [hnil])⟩
          · intro out hout
            have h := hjoin out hout
            simp only [List.map_cons, List.flatten_cons]
            have hrd : reposData resp page = data := by simp [reposData, hr]
            rw [hrd, h, List.append_assoc]

theorem getEventsLoop_spec {α : Type} (resp : Nat → Nat × List α) :
    ∀ (fuel page : Nat) (acc : List α), page + fuel = 4 →
      (∃ k, page + k ≤ 4 ∧ (getEventsLoop resp page acc).1 = List.range' page k) ∧
      (∀ q, page ≤ q → q + 1 ∈ (getEventsLoop resp page acc).1 →
          (resp q).1 = 200 ∧ (resp q).2 ≠ []) ∧
      (getEventsLoop resp page acc).2 =
        acc ++ ((getEventsLoop resp page acc).1.map (eventsData resp)).flatten := by
  intro fuel
  induction fuel with
  | zero =>
    intro page acc hpf
    have hpage : ¬ page ≤ 3 := by omega
    rw [getEventsLoop, dif_neg hpage]
    exact ⟨⟨0, by omega, by simp⟩, fun q hq hmem => absurd hmem (by simp), by simp⟩
  | succ n ih =>
    intro page acc hpf
    have hpage : page ≤ 3 := by omega
    by_cases hst : (resp page).1 ≠ 200
    · rw [getEventsLoop, dif_pos hpage, if_pos hst]
      refine ⟨⟨1, by omega, by simp⟩, ?_, ?_⟩
      · intro q hq hmem
        rw [List.mem_singleton] at hmem
        omega
      · simp [eventsData, hst]
    · push_neg at hst
      by_cases hde : (resp page).2.isEmpty
      · rw [getEventsLoop, dif_pos hpage, if_neg (fun h => h hst), if_pos hde]
        refine ⟨⟨1, by omega, by simp⟩, ?_, ?_⟩
        · intro q hq hmem
          rw [List.mem_singleton] at hmem
          omega
        · have hdata : (resp page).2 = [] := List.isEmpty_iff.mp hde
          simp [eventsData, hst, hdata]
      · rw [getEventsLoop, dif_pos hpage, if_neg (fun h => h hst), if_neg hde]
        have hrec := ih (page + 1) (acc ++ (resp page).2) (by omega)
        obtain ⟨⟨k, hk4, hkeq⟩, hstop, hjoin⟩ := hrec
        refine ⟨⟨k + 1, by omega, ?_⟩, ?_, ?_⟩
        · rw [List.range'_succ]
          simp [hkeq]
        · intro q hq hmem
          simp only [List.mem_cons] at hmem
          rcases hmem with h1 | h2
          · omega
          · by_cases hqp : page + 1 ≤ q
            · exact hstop q hqp h2
            · have hqe : q = page := by omega
              subst hqe
              exact ⟨hst, fun hnil => hde (by simp [hnil])⟩
        · simp only [List.map_cons, List.flatten_cons]
          have hed : eventsData resp page = (resp page).2 := by simp [eventsData, hst]
          rw [hed, hjoin, List.append_assoc]

/-- C7: for every assignment of remote responses to pages, `get_repos`
requests an ascending run of pages starting at 1 of length at most 5, a
page's successor is requested only when that page succeeded with a nonempty
body (early stop on empty pages), and a successful result is the
concatenation of the requested pages' records in source order; `get_events`
requests at most 3 ascending pages, a successor only after a 200 nonempty
page (early stop on empty or non-success), and returns the concatenation of
the 200-pages' records in order.  Totality of the two model functions is
the termination claim. -/
theorem claim_C7 {α : Type} (resp : Nat → ReposPage α) (respE : Nat → Nat × List α) :
    (∃ k, 1 ≤ k ∧ k ≤ 5 ∧ (getRepos resp).1 = List.range' 1 k) ∧
    (∀ q, 1 ≤ q → q + 1 ∈ (getRepos resp).1 → ∃ d, resp q = .ok d ∧ d ≠ []) ∧
    (∀ out, (getRepos resp).2 = .ok out →
        out = ((getRepos resp).1.map (reposData resp)).flatten) ∧
    (∃ k, k ≤ 3 ∧ (getEvents respE).1 = List.range' 1 k) ∧
    (∀ q, 1 ≤ q → q + 1 ∈ (getEvents respE).1 →
        (respE q).1 = 200 ∧ (respE q).2 ≠ []) ∧
    (getEvents respE).2 = ((getEvents respE).1.map (eventsData respE)).flatten := by
  obtain ⟨⟨k, hk1, hk6, hkeq⟩, hstop, hjoin⟩ := getReposLoop_spec resp 5 1 [] rfl (by omega)
  obtain ⟨⟨ke, hke4, hkeeq⟩, hstopE, hjoinE⟩ := getEventsLoop_spec respE 3 1 [] rfl
  refine ⟨⟨k, hk1, by omega, hkeq⟩, hstop, ?_, ⟨ke, by omega, hkeeq⟩, hstopE, ?_⟩
  · intro out hout
    simpa using hjoin out hout
  · simpa using hjoinE

/-- Witness for C7 at concrete responses (page 1 nonempty, page 2 empty /
rejected). -/
theorem claim_C7_witness :
    (∃ k, 1 ≤ k ∧ k ≤ 5 ∧ (getRepos exResp).1 = List.range' 1 k) ∧
    (∃ d, exResp 1 = .ok d ∧ d ≠ []) ∧
    (∀ out, (getRepos exResp).2 = .ok out →
        out = ((getRepos exResp).1.map (reposData exResp)).flatten) ∧
    (getEvents exRespE).2 = ((getEvents exRespE).1.map (eventsData exRespE)).flatten :=
  ⟨(claim_C7 exResp exRespE).1,
   (claim_C7 exResp exRespE).2.1 1 (by omega)
     (by
       rw [getRepos, getReposLoop_next exResp 1 [] [10] rfl (by decide) (by omega),
         getReposLoop_emptyPage exResp (1 + 1) ([] ++ [10]) [] rfl rfl]
       simp),
   (claim_C7 exResp exRespE).2.2.1,
   (claim_C7 exResp exRespE).2.2.2.2.2⟩


end ProfileAnalyzerModel
